import Mathlib

/-!
Verification of the overdriveTA RAG system against its specification.

The backend persistence layer is `src/backend/setup_database.sql`: three
tables (`documents`, `document_chunks`, `embeddings`) and the plpgsql
function `similarity_search`.  SQL floats are modelled as `ℚ`, SQL `int`
as `ℤ`, nullable columns as `Option`.  The pgvector cosine-distance
operator is an external primitive of the database, so it is a parameter
`cd : List ℚ → List ℚ → ℚ` of every definition that uses it.

`similarity_search` executes
  SELECT dc.id, dc.document_id, dc.chunk_text, dc.page_number,
         (1 - (e.embedding_vector <=> query_embedding)) AS similarity,
         d.title, d.filename
  FROM embeddings e
  JOIN document_chunks dc ON e.chunk_id = dc.id
  JOIN documents d ON dc.document_id = d.id
  WHERE (1 - (e.embedding_vector <=> query_embedding)) > match_threshold
  ORDER BY e.embedding_vector <=> query_embedding
  LIMIT match_count;
The ORDER BY key leaves rows with equal distance in an unspecified
relative order, so the result is modelled as a relation
(`IsSearchOutput`): any distance-sorted permutation of the filtered join,
truncated to `match_count`.  Since similarity = 1 - distance exactly
(over `ℚ`), sorting by distance ascending is sorting by similarity
descending.  PostgreSQL raises `LIMIT must not be negative` when the
LIMIT expression is negative, which the top-level relation
(`SimSearchSpec`) and the executable refinement (`similarity_search`)
both reflect with an `Except` result.
-/

/-- Row of the `documents` table (setup_database.sql lines 5-14). -/
structure DocumentRow where
  id : ℤ
  title : String
  filename : String
  file_size : ℤ
  content_type : String
  processed : Bool
deriving DecidableEq

/-- Row of the `document_chunks` table (setup_database.sql lines 17-25). -/
structure ChunkRow where
  id : ℤ
  document_id : Option ℤ
  chunk_text : String
  chunk_index : ℤ
  page_number : Option ℤ
deriving DecidableEq

/-- Row of the `embeddings` table (setup_database.sql lines 28-34).
`embedding_vector vector(768)` is nullable, hence `Option (List ℚ)`. -/
structure EmbeddingRow where
  id : ℤ
  chunk_id : Option ℤ
  embedding_vector : Option (List ℚ)
  model_name : String
deriving DecidableEq

/-- The persisted database state: the three related tables. -/
structure Database where
  documents : List DocumentRow
  document_chunks : List ChunkRow
  embeddings : List EmbeddingRow
deriving DecidableEq

/-- Output row type of `similarity_search` (setup_database.sql lines 52-60). -/
structure ResultRow where
  chunk_id : ℤ
  document_id : ℤ
  chunk_text : String
  page_number : Option ℤ
  similarity : ℚ
  title : String
  filename : String
deriving DecidableEq

/-- The SELECT list of `similarity_search` for one matched join of a chunk
`dc` and its document `d`, with computed similarity `s`. -/
def ResultRow.ofJoin (dc : ChunkRow) (d : DocumentRow) (s : ℚ) : ResultRow :=
  { chunk_id := dc.id, document_id := d.id, chunk_text := dc.chunk_text,
    page_number := dc.page_number, similarity := s, title := d.title,
    filename := d.filename }

/-- `vector(768)`: dimension of the active embedding model
(Gemini text-embedding-004, setup_database.sql line 31). -/
def EMBEDDING_DIM : ℕ := 768

/-- `match_threshold float DEFAULT 0.7` (setup_database.sql line 49). -/
def defaultMatchThreshold : ℚ := 7/10

/-- `match_count int DEFAULT 5` (setup_database.sql line 50). -/
def defaultMatchCount : ℤ := 5

/-- The filtered join of `similarity_search` before ORDER BY / LIMIT:
FROM embeddings e JOIN document_chunks dc ON e.chunk_id = dc.id
JOIN documents d ON dc.document_id = d.id
WHERE (1 - (e.embedding_vector <=> query_embedding)) > match_threshold.
A NULL `embedding_vector` or NULL join key never satisfies the
three-valued SQL conditions, which `Option.toList`/`some`-equations model.
The list order is irrelevant: the output relation only uses it up to
permutation, as SQL does before ORDER BY. -/
def candRows (cd : List ℚ → List ℚ → ℚ) (db : Database) (q : List ℚ)
    (thr : ℚ) : List ResultRow :=
  db.embeddings.flatMap fun e =>
    db.document_chunks.flatMap fun dc =>
      db.documents.flatMap fun d =>
        e.embedding_vector.toList.flatMap fun v =>
          if e.chunk_id = some dc.id ∧ dc.document_id = some d.id ∧
              thr < 1 - cd v q
          then [ResultRow.ofJoin dc d (1 - cd v q)] else []

/-- Comparison used by ORDER BY: distance ascending, i.e. (since
similarity = 1 - distance over ℚ) similarity descending. -/
def simGE (a b : ResultRow) : Prop := b.similarity ≤ a.similarity

instance : DecidableRel simGE :=
  fun a b => inferInstanceAs (Decidable (b.similarity ≤ a.similarity))

instance : IsTotal ResultRow simGE := ⟨fun a b => le_total b.similarity a.similarity⟩

instance : IsTrans ResultRow simGE := ⟨fun _ _ _ h1 h2 => le_trans h2 h1⟩

/-- A list is a possible result set of the ORDER BY / LIMIT stage of
`similarity_search`: some distance-sorted permutation of the filtered
join, truncated to the first `n` rows.  SQL fixes no order among rows
with equal sort key, so this is a relation, not a function. -/
def IsSearchOutput (cd : List ℚ → List ℚ → ℚ) (db : Database) (q : List ℚ)
    (thr : ℚ) (n : ℕ) (out : List ResultRow) : Prop :=
  ∃ l, List.Perm l (candRows cd db q thr) ∧ List.Sorted simGE l ∧ out = l.take n

/-- Full semantics of calling `similarity_search(query_embedding,
match_threshold, match_count)`: PostgreSQL raises
`LIMIT must not be negative` when `match_count < 0`; otherwise the call
succeeds with some valid output list. -/
def SimSearchSpec (cd : List ℚ → List ℚ → ℚ) (db : Database) (q : List ℚ)
    (thr : ℚ) (cnt : ℤ) (res : Except String (List ResultRow)) : Prop :=
  if cnt < 0 then res = Except.error "LIMIT must not be negative"
  else ∃ rows, res = Except.ok rows ∧ IsSearchOutput cd db q thr cnt.toNat rows

/-- Executable refinement of `similarity_search`: one particular valid
execution (it resolves the tie order with a stable insertion sort). -/
def similarity_search (cd : List ℚ → List ℚ → ℚ) (db : Database) (q : List ℚ)
    (thr : ℚ) (cnt : ℤ) : Except String (List ResultRow) :=
  if cnt < 0 then Except.error "LIMIT must not be negative"
  else Except.ok ((List.insertionSort simGE (candRows cd db q thr)).take cnt.toNat)

/-- The executable function satisfies the search relation. -/
lemma simSearchSpec_run (cd : List ℚ → List ℚ → ℚ) (db : Database)
    (q : List ℚ) (thr : ℚ) (cnt : ℤ) :
    SimSearchSpec cd db q thr cnt (similarity_search cd db q thr cnt) := by
  unfold SimSearchSpec similarity_search
  split
  · rfl
  · exact ⟨_, rfl, List.insertionSort simGE (candRows cd db q thr),
      List.perm_insertionSort _ _, List.sorted_insertionSort _ _, rfl⟩

/-- A nullable foreign-key column value only holds ids present in the
referenced table (`REFERENCES` constraint; NULL is allowed). -/
def optRefOK (o : Option ℤ) (ids : List ℤ) : Prop := ∀ i, o = some i → i ∈ ids

instance (o : Option ℤ) (ids : List ℤ) : Decidable (optRefOK o ids) :=
  match o with
  | none => isTrue fun _ h => nomatch h
  | some i =>
    if h : i ∈ ids then
      isTrue fun j hj => by cases hj; exact h
    else isFalse fun hh => h (hh i rfl)

/-- A nullable `vector(768)` column value has dimension 768 when present. -/
def vecDimOK (o : Option (List ℚ)) : Prop :=
  ∀ v, o = some v → v.length = EMBEDDING_DIM

instance (o : Option (List ℚ)) : Decidable (vecDimOK o) :=
  match o with
  | none => isTrue fun _ h => nomatch h
  | some v =>
    if h : v.length = EMBEDDING_DIM then
      isTrue fun w hw => by cases hw; exact h
    else isFalse fun hh => h (hh v rfl)

/-- The constraints declared by setup_database.sql: SERIAL primary keys
are unique, `document_chunks.document_id REFERENCES documents(id)`,
`embeddings.chunk_id REFERENCES document_chunks(id)`, and
`embedding_vector vector(768)`. -/
structure SchemaWF (db : Database) : Prop where
  documents_pk : List.Pairwise (fun a b => a.id ≠ b.id) db.documents
  chunks_pk : List.Pairwise (fun a b => a.id ≠ b.id) db.document_chunks
  embeddings_pk : List.Pairwise (fun a b => a.id ≠ b.id) db.embeddings
  chunks_fk : ∀ c ∈ db.document_chunks, optRefOK c.document_id (db.documents.map DocumentRow.id)
  embeddings_fk : ∀ e ∈ db.embeddings, optRefOK e.chunk_id (db.document_chunks.map ChunkRow.id)
  embeddings_dim : ∀ e ∈ db.embeddings, vecDimOK e.embedding_vector

/-- `DELETE FROM documents WHERE id = docId` with the declared
`ON DELETE CASCADE` actions: chunks of the document are deleted, and
embeddings referencing a deleted chunk are deleted in turn. -/
def deleteDocument (db : Database) (docId : ℤ) : Database :=
  let dead := db.document_chunks.filter fun c => decide (c.document_id = some docId)
  { documents := db.documents.filter fun d => decide (d.id ≠ docId),
    document_chunks := db.document_chunks.filter fun c => decide (c.document_id ≠ some docId),
    embeddings := db.embeddings.filter fun e => decide (∀ c ∈ dead, e.chunk_id ≠ some c.id) }

/-! Front-end models.

`src/frontend/src/app/page.tsx` (`handleSendMessage`) and the message
input component (`handleSubmit`) guard on JavaScript
`content.trim()`/`message.trim()` truthiness before any request is
issued.  Strings are modelled as `List Char`; `jsTrim` models
`String.prototype.trim` (strip leading/trailing whitespace). -/

def jsTrim (s : List Char) : List Char :=
  ((s.dropWhile Char.isWhitespace).reverse.dropWhile Char.isWhitespace).reverse

/-- Body of the POST to `/api/chat/query` built by `handleSendMessage`:
`{query: content.trim(), max_results: 5}` (page.tsx lines 63-66). -/
structure QueryRequest where
  query : List Char
  max_results : ℤ
deriving DecidableEq

/-- `handleSendMessage` (page.tsx lines 43-67): returns the request it
sends to the query API, or `none` when it returns early
(`if (!content.trim() || isLoading) return;`). -/
def handleSendMessage (content : List Char) (isLoading : Bool) : Option QueryRequest :=
  if jsTrim content = [] ∨ isLoading = true then none
  else some { query := jsTrim content, max_results := 5 }

/-- `handleSubmit` of the MessageInput component: forwards the raw
message to `onSendMessage` only when `message.trim() && !disabled`. -/
def handleSubmit (message : List Char) (disabled : Bool) : Option (List Char) :=
  if jsTrim message ≠ [] ∧ disabled = false then some message else none

/-! `ChatMessage` confidence rendering (components/ChatMessage.tsx).
`confidence?: number` is `Option ℚ`; the JavaScript guard
`if (!confidence)` is true for `undefined` and for `0`. -/

/-- `getConfidenceLabel` (ChatMessage.tsx lines 45-50). -/
def getConfidenceLabel (confidence : Option ℚ) : String :=
  match confidence with
  | none => "Unknown"
  | some c =>
    if c = 0 then "Unknown"
    else if 8/10 ≤ c then "High Confidence"
    else if 6/10 ≤ c then "Medium Confidence"
    else "Low Confidence"

/-- `getConfidenceColor` (ChatMessage.tsx lines 38-43). -/
def getConfidenceColor (confidence : Option ℚ) : String :=
  match confidence with
  | none => "text-white/50"
  | some c =>
    if c = 0 then "text-white/50"
    else if 8/10 ≤ c then "text-green-400"
    else if 6/10 ≤ c then "text-yellow-400"
    else "text-red-400"

/-- Upper bound to which the server clamps `max_results`
("a sane positive upper bound"). -/
def MAX_RESULTS_BOUND : ℤ := 20

/-- Modelled from the spec: the Query API server that receives
`{query, max_results}` is not among the repository sources (only its SQL
callee `similarity_search` and its front-end callers are).  Per spec
section 6, `max_results` "must be clamped to a sane positive upper bound
server-side regardless of caller input", and per section 8, "query with
max_results = 0 or negative" is "rejected before any provider call". -/
def clamp_max_results (n : ℤ) : Except String ℤ :=
  if n ≤ 0 then Except.error "max_results must be positive"
  else Except.ok (min n MAX_RESULTS_BOUND)

lemma mem_ite_singleton {α : Type} {c : Prop} [Decidable c] {a x : α} :
    (a ∈ if c then [x] else []) ↔ c ∧ a = x := by
  split <;> simp_all

lemma mem_toList_iff {α : Type} (o : Option α) (v : α) :
    v ∈ o.toList ↔ o = some v := by
  cases o <;> simp [eq_comm]

/-- Characterization of the rows produced by the filtered join. -/
lemma mem_candRows {cd : List ℚ → List ℚ → ℚ} {db : Database} {q : List ℚ}
    {thr : ℚ} {r : ResultRow} :
    r ∈ candRows cd db q thr ↔
      ∃ e ∈ db.embeddings, ∃ dc ∈ db.document_chunks, ∃ d ∈ db.documents,
        ∃ v, e.embedding_vector = some v ∧ e.chunk_id = some dc.id ∧
          dc.document_id = some d.id ∧ thr < 1 - cd v q ∧
          r = ResultRow.ofJoin dc d (1 - cd v q) := by
  simp only [candRows, List.mem_flatMap, mem_ite_singleton, mem_toList_iff]
  constructor
  · rintro ⟨e, he, dc, hdc, d, hd, v, hv, ⟨h1, h2, h3⟩, h4⟩
    exact ⟨e, he, dc, hdc, d, hd, v, hv, h1, h2, h3, h4⟩
  · rintro ⟨e, he, dc, hdc, d, hd, v, hv, h1, h2, h3, h4⟩
    exact ⟨e, he, dc, hdc, d, hd, v, hv, ⟨h1, h2, h3⟩, h4⟩

lemma IsSearchOutput.mem_cand {cd : List ℚ → List ℚ → ℚ} {db : Database}
    {q : List ℚ} {thr : ℚ} {n : ℕ} {out : List ResultRow} {r : ResultRow}
    (h : IsSearchOutput cd db q thr n out) (hr : r ∈ out) :
    r ∈ candRows cd db q thr := by
  obtain ⟨l, hperm, -, rfl⟩ := h
  exact hperm.subset ((List.take_sublist n l).mem hr)

lemma IsSearchOutput.sorted {cd : List ℚ → List ℚ → ℚ} {db : Database}
    {q : List ℚ} {thr : ℚ} {n : ℕ} {out : List ResultRow}
    (h : IsSearchOutput cd db q thr n out) : List.Sorted simGE out := by
  obtain ⟨l, -, hsort, rfl⟩ := h
  exact hsort.sublist (List.take_sublist n l)

lemma IsSearchOutput.length_le {cd : List ℚ → List ℚ → ℚ} {db : Database}
    {q : List ℚ} {thr : ℚ} {n : ℕ} {out : List ResultRow}
    (h : IsSearchOutput cd db q thr n out) : out.length ≤ n := by
  obtain ⟨l, -, -, rfl⟩ := h
  exact List.length_take_le n l

/-- Eliminating a successful run of the search relation. -/
lemma searchSpec_ok_elim {cd : List ℚ → List ℚ → ℚ} {db : Database}
    {q : List ℚ} {thr : ℚ} {cnt : ℤ} {res : Except String (List ResultRow)}
    {rows : List ResultRow}
    (hs : SimSearchSpec cd db q thr cnt res) (h : res = Except.ok rows) :
    0 ≤ cnt ∧ IsSearchOutput cd db q thr cnt.toNat rows := by
  unfold SimSearchSpec at hs
  split at hs
  · subst h; simp at hs
  · obtain ⟨rows', hr, hout⟩ := hs
    rw [h] at hr
    obtain rfl : rows = rows' := by simpa using hr
    next hneg => exact ⟨le_of_not_lt hneg, hout⟩

lemma candRows_nil (cd : List ℚ → List ℚ → ℚ) (db : Database) (q : List ℚ)
    (thr : ℚ) (h : db.embeddings = []) : candRows cd db q thr = [] := by
  unfold candRows
  rw [h]
  rfl

/-- Against an empty `embeddings` table, a run with a nonnegative cap
returns the empty list. -/
lemma searchSpec_empty {cd : List ℚ → List ℚ → ℚ} {db : Database}
    {q : List ℚ} {thr : ℚ} {cnt : ℤ} {res : Except String (List ResultRow)}
    (h : db.embeddings = []) (hc : 0 ≤ cnt)
    (hs : SimSearchSpec cd db q thr cnt res) : res = Except.ok [] := by
  unfold SimSearchSpec at hs
  rw [if_neg (not_lt.mpr hc)] at hs
  obtain ⟨rows, rfl, l, hperm, -, htake⟩ := hs
  rw [candRows_nil cd db q thr h] at hperm
  rw [htake, hperm.eq_nil]
  simp

/-- Relabel every stored embedding's `model_name`.  `similarity_search`
never reads that column, so its behaviour is invariant under this. -/
def relabelModels (f : String → String) (db : Database) : Database :=
  { documents := db.documents, document_chunks := db.document_chunks,
    embeddings := db.embeddings.map fun e =>
      { id := e.id, chunk_id := e.chunk_id,
        embedding_vector := e.embedding_vector, model_name := f e.model_name } }

lemma candRows_relabel (cd : List ℚ → List ℚ → ℚ) (f : String → String)
    (db : Database) (q : List ℚ) (thr : ℚ) :
    candRows cd (relabelModels f db) q thr = candRows cd db q thr := by
  unfold candRows relabelModels
  rw [List.flatMap_map]

/-! Concrete fixtures used by witnesses and counterexamples.  `cdist0` is
a concrete stand-in for the external cosine-distance operator. -/

def cdist0 : List ℚ → List ℚ → ℚ := fun _ _ => 0

def vec768 : List ℚ := List.replicate EMBEDDING_DIM 1

def qv : List ℚ := List.replicate EMBEDDING_DIM 0

def doc1 : DocumentRow :=
  { id := 1, title := "Doc One", filename := "one.pdf", file_size := 10,
    content_type := "application/pdf", processed := true }

def chunkA : ChunkRow :=
  { id := 1, document_id := some 1, chunk_text := "alpha", chunk_index := 0,
    page_number := some 1 }

def chunkB : ChunkRow :=
  { id := 2, document_id := some 1, chunk_text := "beta", chunk_index := 1,
    page_number := some 2 }

def embA : EmbeddingRow :=
  { id := 1, chunk_id := some 1, embedding_vector := some vec768,
    model_name := "models/text-embedding-004" }

def embB : EmbeddingRow :=
  { id := 2, chunk_id := some 2, embedding_vector := some vec768,
    model_name := "all-MiniLM-L6-v2" }

def dbTwo : Database :=
  { documents := [doc1], document_chunks := [chunkA, chunkB],
    embeddings := [embA, embB] }

def dbOne : Database :=
  { documents := [doc1], document_chunks := [chunkA], embeddings := [embA] }

def emptyStoreDb : Database :=
  { documents := [doc1], document_chunks := [chunkA], embeddings := [] }

def rowA : ResultRow :=
  { chunk_id := 1, document_id := 1, chunk_text := "alpha",
    page_number := some 1, similarity := 1, title := "Doc One",
    filename := "one.pdf" }

def rowB : ResultRow :=
  { chunk_id := 2, document_id := 1, chunk_text := "beta",
    page_number := some 2, similarity := 1, title := "Doc One",
    filename := "one.pdf" }

lemma cand_dbTwo :
    candRows cdist0 dbTwo qv defaultMatchThreshold = [rowA, rowB] := by
  norm_num [candRows, dbTwo, embA, embB, chunkA, chunkB, doc1, cdist0,
    ResultRow.ofJoin, rowA, rowB, defaultMatchThreshold, Option.toList]

lemma sorted_pair_AB : List.Sorted simGE [rowA, rowB] := by
  simp [List.sorted_cons, simGE, rowA, rowB]

lemma sorted_pair_BA : List.Sorted simGE [rowB, rowA] := by
  simp [List.sorted_cons, simGE, rowA, rowB]

lemma sortedCand_dbTwo :
    List.insertionSort simGE (candRows cdist0 dbTwo qv defaultMatchThreshold) =
      [rowA, rowB] := by
  rw [cand_dbTwo]
  norm_num [List.insertionSort, List.orderedInsert, simGE, rowA, rowB]

lemma run_dbTwo (cnt : ℤ) (h : 2 ≤ cnt) :
    similarity_search cdist0 dbTwo qv defaultMatchThreshold cnt =
      Except.ok [rowA, rowB] := by
  unfold similarity_search
  rw [if_neg (by omega), sortedCand_dbTwo]
  congr 1
  exact List.take_of_length_le (by simp; omega)

lemma dbOne_wf : SchemaWF dbOne := by
  refine ⟨?_, ?_, ?_, ?_, ?_, ?_⟩ <;>
    simp [dbOne, doc1, chunkA, embA, optRefOK, vecDimOK, vec768]

/-- Claim C1 (amended): `similarity_search` takes no `model_name`
parameter and compares the query vector against every stored embedding
regardless of its `model_name` — its behaviour is invariant under any
relabelling of the stored `model_name` column — and a request against an
empty vector space returns an empty result set for every floor and every
nonnegative result cap. -/
theorem search_ignores_model_name (cd : List ℚ → List ℚ → ℚ) (db : Database)
    (q : List ℚ) (thr : ℚ) (cnt : ℤ) (f : String → String)
    (res : Except String (List ResultRow)) :
    (SimSearchSpec cd (relabelModels f db) q thr cnt res ↔
      SimSearchSpec cd db q thr cnt res) ∧
    (db.embeddings = [] → 0 ≤ cnt →
      SimSearchSpec cd db q thr cnt res → res = Except.ok []) := by
  constructor
  · unfold SimSearchSpec IsSearchOutput
    rw [candRows_relabel]
  · exact fun h hc hs => searchSpec_empty h hc hs

theorem search_ignores_model_name_witness :
    similarity_search cdist0 emptyStoreDb qv defaultMatchThreshold 0 =
      Except.ok [] :=
  (search_ignores_model_name cdist0 emptyStoreDb qv defaultMatchThreshold 0 id
      (similarity_search cdist0 emptyStoreDb qv defaultMatchThreshold 0)).2
    rfl (by norm_num)
    (simSearchSpec_run cdist0 emptyStoreDb qv defaultMatchThreshold 0)

/-- Claim C1 as stated is false: the store `dbTwo` holds embeddings under
two different `model_name`s, and one valid output of `similarity_search`
returns rows backed by both of them, so vectors not sharing a single
query model name are compared and returned; moreover a negative result
cap raises an error even against an empty vector space. -/
theorem similarity_search_mixes_model_names :
    embA ∈ dbTwo.embeddings ∧ embB ∈ dbTwo.embeddings ∧
    embA.model_name ≠ embB.model_name ∧
    embA.chunk_id = some rowA.chunk_id ∧ embB.chunk_id = some rowB.chunk_id ∧
    IsSearchOutput cdist0 dbTwo qv defaultMatchThreshold 5 [rowA, rowB] ∧
    rowA ∈ [rowA, rowB] ∧ rowB ∈ [rowA, rowB] ∧
    similarity_search cdist0 emptyStoreDb qv defaultMatchThreshold (-1) =
      Except.error "LIMIT must not be negative" := by
  refine ⟨by simp [dbTwo], by simp [dbTwo], by decide, rfl, rfl,
    ⟨[rowA, rowB], ?_, sorted_pair_AB, rfl⟩, by simp, by simp, ?_⟩
  · rw [cand_dbTwo]
  · unfold similarity_search
    rw [if_pos (by norm_num)]

/-- Claim C2: every row returned by `similarity_search` has a
`similarity` that is not below the given similarity floor
(`match_threshold`); rows at or below the floor are excluded by the
WHERE clause. -/
theorem search_respects_floor (cd : List ℚ → List ℚ → ℚ) (db : Database)
    (q : List ℚ) (thr : ℚ) (cnt : ℤ) (res : Except String (List ResultRow))
    (rows : List ResultRow) (hs : SimSearchSpec cd db q thr cnt res)
    (hok : res = Except.ok rows) :
    ∀ row ∈ rows, thr ≤ row.similarity := by
  intro row hrow
  obtain ⟨-, hout⟩ := searchSpec_ok_elim hs hok
  obtain ⟨e, -, dc, -, d, -, v, -, -, -, h3, h4⟩ :=
    mem_candRows.mp (hout.mem_cand hrow)
  rw [h4]
  exact le_of_lt h3

theorem search_respects_floor_witness :
    defaultMatchThreshold ≤ rowA.similarity :=
  search_respects_floor cdist0 dbTwo qv defaultMatchThreshold 5
    (similarity_search cdist0 dbTwo qv defaultMatchThreshold 5) [rowA, rowB]
    (simSearchSpec_run cdist0 dbTwo qv defaultMatchThreshold 5)
    (run_dbTwo 5 (by norm_num)) rowA (by simp)

/-- Claim C3: every returned row's `similarity` equals 1 minus the cosine
distance between its stored embedding vector and the query vector, the
returned list is ordered descending by that similarity, and at most
`match_count` rows are returned. -/
theorem search_scores_sorted_capped (cd : List ℚ → List ℚ → ℚ)
    (db : Database) (q : List ℚ) (thr : ℚ) (cnt : ℤ)
    (res : Except String (List ResultRow)) (rows : List ResultRow)
    (hs : SimSearchSpec cd db q thr cnt res) (hok : res = Except.ok rows) :
    (∀ row ∈ rows, ∃ e ∈ db.embeddings, ∃ v, e.embedding_vector = some v ∧
      e.chunk_id = some row.chunk_id ∧ row.similarity = 1 - cd v q) ∧
    List.Sorted simGE rows ∧ (rows.length : ℤ) ≤ cnt := by
  obtain ⟨hc, hout⟩ := searchSpec_ok_elim hs hok
  refine ⟨?_, hout.sorted, ?_⟩
  · intro row hrow
    obtain ⟨e, he, dc, -, d, -, v, hv, h1, -, -, h4⟩ :=
      mem_candRows.mp (hout.mem_cand hrow)
    subst h4
    exact ⟨e, he, v, hv, h1, rfl⟩
  · have hlen := hout.length_le
    omega

theorem search_scores_sorted_capped_witness :
    List.Sorted simGE [rowA, rowB] ∧
    (([rowA, rowB] : List ResultRow).length : ℤ) ≤ 5 :=
  ⟨(search_scores_sorted_capped cdist0 dbTwo qv defaultMatchThreshold 5
      (similarity_search cdist0 dbTwo qv defaultMatchThreshold 5) [rowA, rowB]
      (simSearchSpec_run cdist0 dbTwo qv defaultMatchThreshold 5)
      (run_dbTwo 5 (by norm_num))).2.1,
   (search_scores_sorted_capped cdist0 dbTwo qv defaultMatchThreshold 5
      (similarity_search cdist0 dbTwo qv defaultMatchThreshold 5) [rowA, rowB]
      (simSearchSpec_run cdist0 dbTwo qv defaultMatchThreshold 5)
      (run_dbTwo 5 (by norm_num))).2.2⟩

/-- Claim C4 (amended): `similarity_search` applies no `chunk_id`
tie-break, so rows with equal `similarity` may be returned in any order
(and a cap cutting into a tie may even change which rows are returned);
what is deterministic across any two valid executions on identical
inputs is the sequence of similarity scores, and hence the result
length. -/
theorem search_deterministic_up_to_ties (cd : List ℚ → List ℚ → ℚ)
    (db : Database) (q : List ℚ) (thr : ℚ) (n : ℕ)
    (out1 out2 : List ResultRow)
    (h1 : IsSearchOutput cd db q thr n out1)
    (h2 : IsSearchOutput cd db q thr n out2) :
    out1.map ResultRow.similarity = out2.map ResultRow.similarity ∧
    out1.length = out2.length := by
  obtain ⟨l1, p1, s1, rfl⟩ := h1
  obtain ⟨l2, p2, s2, rfl⟩ := h2
  have hperm : List.Perm (l1.map ResultRow.similarity)
      (l2.map ResultRow.similarity) := (p1.trans p2.symm).map _
  have hs1 : List.Sorted (fun a b : ℚ => a ≥ b) (l1.map ResultRow.similarity) := by
    rw [List.Sorted, List.pairwise_map]
    exact s1
  have hs2 : List.Sorted (fun a b : ℚ => a ≥ b) (l2.map ResultRow.similarity) := by
    rw [List.Sorted, List.pairwise_map]
    exact s2
  have heq : l1.map ResultRow.similarity = l2.map ResultRow.similarity :=
    List.eq_of_perm_of_sorted hperm hs1 hs2
  have hlen : l1.length = l2.length := by
    have := congrArg List.length heq
    simpa using this
  constructor
  · rw [List.map_take, List.map_take, heq]
  · simp [List.length_take, hlen]

theorem search_deterministic_up_to_ties_witness :
    List.map ResultRow.similarity [rowA, rowB] =
      List.map ResultRow.similarity [rowA, rowB] ∧
    ([rowA, rowB] : List ResultRow).length = [rowA, rowB].length :=
  search_deterministic_up_to_ties cdist0 dbTwo qv defaultMatchThreshold 5
    [rowA, rowB] [rowA, rowB]
    ⟨[rowA, rowB], by rw [cand_dbTwo], sorted_pair_AB, rfl⟩
    ⟨[rowA, rowB], by rw [cand_dbTwo], sorted_pair_AB, rfl⟩

/-- Claim C4 as stated is false: ORDER BY uses only the distance, so on
the store `dbTwo`, whose two rows tie at similarity 1, the output with
the higher `chunk_id` first is as valid as the one with the lower
`chunk_id` first, and with cap 1 either row alone may be returned — the
ranked output is not a deterministic function of the stored vectors and
the query. -/
theorem no_chunk_id_tie_break :
    rowA.similarity = rowB.similarity ∧ rowA.chunk_id < rowB.chunk_id ∧
    IsSearchOutput cdist0 dbTwo qv defaultMatchThreshold 2 [rowB, rowA] ∧
    IsSearchOutput cdist0 dbTwo qv defaultMatchThreshold 1 [rowA] ∧
    IsSearchOutput cdist0 dbTwo qv defaultMatchThreshold 1 [rowB] ∧
    rowA ≠ rowB := by
  refine ⟨rfl, by norm_num [rowA, rowB], ?_, ?_, ?_, by simp [rowA, rowB]⟩
  · exact ⟨[rowB, rowA], by rw [cand_dbTwo]; exact List.Perm.swap rowA rowB [],
      sorted_pair_BA, rfl⟩
  · exact ⟨[rowA, rowB], by rw [cand_dbTwo], sorted_pair_AB, rfl⟩
  · exact ⟨[rowB, rowA], by rw [cand_dbTwo]; exact List.Perm.swap rowA rowB [],
      sorted_pair_BA, rfl⟩

/-- Claim C5 (amended): when the set of stored embeddings is empty,
`similarity_search` returns the empty sequence without error for every
query vector, floor, and nonnegative result cap; a negative cap raises
the PostgreSQL error `LIMIT must not be negative` instead. -/
theorem empty_store_search_empty (cd : List ℚ → List ℚ → ℚ) (db : Database)
    (q : List ℚ) (thr : ℚ) (cnt : ℤ) (res : Except String (List ResultRow))
    (h : db.embeddings = []) (hc : 0 ≤ cnt)
    (hs : SimSearchSpec cd db q thr cnt res) : res = Except.ok [] :=
  searchSpec_empty h hc hs

theorem empty_store_search_empty_witness :
    similarity_search cdist0 emptyStoreDb qv (1/2) 3 = Except.ok [] :=
  empty_store_search_empty cdist0 emptyStoreDb qv (1/2) 3
    (similarity_search cdist0 emptyStoreDb qv (1/2) 3) rfl (by norm_num)
    (simSearchSpec_run cdist0 emptyStoreDb qv (1/2) 3)

/-- Claim C5 as stated is false for a negative result cap: against the
empty store, a call with cap -1 raises `LIMIT must not be negative`
rather than returning the empty sequence. -/
theorem negative_cap_errors_on_empty_store :
    SimSearchSpec cdist0 emptyStoreDb qv defaultMatchThreshold (-1)
      (Except.error "LIMIT must not be negative") ∧
    similarity_search cdist0 emptyStoreDb qv defaultMatchThreshold (-1) =
      Except.error "LIMIT must not be negative" ∧
    (Except.error "LIMIT must not be negative" :
      Except String (List ResultRow)) ≠ Except.ok [] := by
  refine ⟨?_, ?_, by simp⟩
  · unfold SimSearchSpec
    rw [if_pos (by norm_num)]
  · unfold similarity_search
    rw [if_pos (by norm_num)]

/-- Claim C6: every row returned by `similarity_search` is produced by
the inner join on `embeddings`, so it references a chunk for which a
persisted (non-NULL) embedding exists; a chunk without an embedding is
never part of any search result. -/
theorem search_rows_reference_embedded_chunks (cd : List ℚ → List ℚ → ℚ)
    (db : Database) (q : List ℚ) (thr : ℚ) (cnt : ℤ)
    (res : Except String (List ResultRow)) (rows : List ResultRow)
    (hs : SimSearchSpec cd db q thr cnt res) (hok : res = Except.ok rows) :
    ∀ row ∈ rows,
      (∃ e ∈ db.embeddings, e.chunk_id = some row.chunk_id ∧
        e.embedding_vector ≠ none) ∧
      ∃ dc ∈ db.document_chunks, dc.id = row.chunk_id := by
  intro row hrow
  obtain ⟨-, hout⟩ := searchSpec_ok_elim hs hok
  obtain ⟨e, he, dc, hdc, d, -, v, hv, h1, -, -, h4⟩ :=
    mem_candRows.mp (hout.mem_cand hrow)
  subst h4
  exact ⟨⟨e, he, h1, by simp [hv]⟩, dc, hdc, rfl⟩

theorem search_rows_reference_embedded_chunks_witness :
    (∃ e ∈ dbTwo.embeddings, e.chunk_id = some rowA.chunk_id ∧
      e.embedding_vector ≠ none) ∧
    ∃ dc ∈ dbTwo.document_chunks, dc.id = rowA.chunk_id :=
  search_rows_reference_embedded_chunks cdist0 dbTwo qv defaultMatchThreshold 5
    (similarity_search cdist0 dbTwo qv defaultMatchThreshold 5) [rowA, rowB]
    (simSearchSpec_run cdist0 dbTwo qv defaultMatchThreshold 5)
    (run_dbTwo 5 (by norm_num)) rowA (by simp)

/-- Claim C7: under the declared schema constraints (foreign keys with
cascading delete, `vector(768)` embedding column), deleting a document
removes it, removes all its chunks, removes every embedding of one of
its chunks, and the surviving embeddings still satisfy the 768-dimension
constraint. -/
theorem delete_document_cascades (db : Database) (docId : ℤ)
    (hwf : SchemaWF db) :
    (∀ d ∈ (deleteDocument db docId).documents, d.id ≠ docId) ∧
    (∀ c ∈ (deleteDocument db docId).document_chunks,
      c.document_id ≠ some docId) ∧
    (∀ c ∈ db.document_chunks, c.document_id = some docId →
      ∀ e ∈ db.embeddings, e.chunk_id = some c.id →
        e ∉ (deleteDocument db docId).embeddings) ∧
    (∀ e ∈ (deleteDocument db docId).embeddings,
      vecDimOK e.embedding_vector) := by
  refine ⟨?_, ?_, ?_, ?_⟩
  · intro d hd
    have h := (List.mem_filter.mp hd).2
    simpa using h
  · intro c hc
    have h := (List.mem_filter.mp hc).2
    simpa using h
  · intro c hc hcd e he hec hmem
    have hpred := (List.mem_filter.mp hmem).2
    rw [decide_eq_true_eq] at hpred
    exact hpred c (List.mem_filter.mpr ⟨hc, by simp [hcd]⟩) hec
  · intro e he
    exact hwf.embeddings_dim e (List.mem_filter.mp he).1

theorem delete_document_cascades_witness :
    embA ∉ (deleteDocument dbOne 1).embeddings :=
  (delete_document_cascades dbOne 1 dbOne_wf).2.2.1 chunkA (by simp [dbOne])
    rfl embA (by simp [dbOne]) rfl

/-- Claim C8 (spec-modelled query API): `max_results` is rejected when
zero or negative and otherwise clamped to the positive upper bound
`MAX_RESULTS_BOUND` before it is used as the search cap, so the number
of rows any valid `similarity_search` run can return under the clamped
cap never exceeds that bound, regardless of the caller-supplied value. -/
theorem max_results_clamped (n : ℤ) :
    (n ≤ 0 → clamp_max_results n = Except.error "max_results must be positive") ∧
    ∀ r : ℤ, clamp_max_results n = Except.ok r →
      0 < r ∧ r ≤ MAX_RESULTS_BOUND ∧
      ∀ (cd : List ℚ → List ℚ → ℚ) (db : Database) (q : List ℚ) (thr : ℚ)
        (res : Except String (List ResultRow)) (rows : List ResultRow),
        SimSearchSpec cd db q thr r res → res = Except.ok rows →
          (rows.length : ℤ) ≤ MAX_RESULTS_BOUND := by
  constructor
  · intro h
    unfold clamp_max_results
    rw [if_pos h]
  · intro r hr
    unfold clamp_max_results at hr
    split at hr
    · simp at hr
    · next hpos =>
      obtain rfl : r = min n MAX_RESULTS_BOUND := by simpa using hr.symm
      push_neg at hpos
      refine ⟨lt_min hpos (by norm_num [MAX_RESULTS_BOUND]),
        min_le_right _ _, ?_⟩
      intro cd db q thr res rows hs hok
      obtain ⟨hc, hout⟩ := searchSpec_ok_elim hs hok
      have hlen := hout.length_le
      have hmin : min n MAX_RESULTS_BOUND ≤ MAX_RESULTS_BOUND :=
        min_le_right _ _
      omega

theorem max_results_clamped_witness :
    (0:ℤ) < 20 ∧ (([rowA, rowB] : List ResultRow).length : ℤ) ≤ MAX_RESULTS_BOUND := by
  have h := (max_results_clamped 1000000).2 20
    (by norm_num [clamp_max_results, MAX_RESULTS_BOUND])
  exact ⟨h.1, h.2.2 cdist0 dbTwo qv defaultMatchThreshold
    (similarity_search cdist0 dbTwo qv defaultMatchThreshold 20) [rowA, rowB]
    (simSearchSpec_run cdist0 dbTwo qv defaultMatchThreshold 20)
    (run_dbTwo 20 (by norm_num))⟩

lemma jsTrim_eq_nil {s : List Char} (h : ∀ c ∈ s, c.isWhitespace) :
    jsTrim s = [] := by
  unfold jsTrim
  rw [List.dropWhile_eq_nil_iff.mpr h]
  rfl

/-- Claim C9: a query whose text is empty or whitespace-only is rejected
synchronously on the client: `handleSendMessage` returns without issuing
a request to the query API, and the message input's `handleSubmit`
forwards nothing, for every loading/disabled state. -/
theorem blank_query_sends_no_request (content message : List Char)
    (loading disabled : Bool)
    (h1 : ∀ c ∈ content, c.isWhitespace) (h2 : ∀ c ∈ message, c.isWhitespace) :
    handleSendMessage content loading = none ∧
    handleSubmit message disabled = none := by
  constructor
  · unfold handleSendMessage
    rw [if_pos (Or.inl (jsTrim_eq_nil h1))]
  · unfold handleSubmit
    rw [if_neg fun hcon => hcon.1 (jsTrim_eq_nil h2)]

theorem blank_query_sends_no_request_witness :
    handleSendMessage [' ', '\t'] false = none ∧
    handleSubmit [] true = none :=
  blank_query_sends_no_request [' ', '\t'] [] false true (by decide) (by decide)

/-- Claim C10: the chat message renderer treats a confidence of exactly 0
like a missing confidence: `getConfidenceLabel` yields `Unknown` (not
`Low Confidence`) and `getConfidenceColor` yields the neutral colour for
both `some 0` and `none`, and within the documented range [0,1] only
strictly positive confidence values are classified into the
low/medium/high bands. -/
theorem zero_confidence_renders_unknown :
    getConfidenceLabel (some 0) = "Unknown" ∧
    getConfidenceLabel none = "Unknown" ∧
    getConfidenceLabel (some 0) ≠ "Low Confidence" ∧
    getConfidenceColor (some 0) = "text-white/50" ∧
    getConfidenceColor none = "text-white/50" ∧
    ∀ c : ℚ, 0 ≤ c → c ≤ 1 →
      (getConfidenceLabel (some c) ≠ "Unknown" ↔ 0 < c) := by
  have h0 : getConfidenceLabel (some 0) = "Unknown" := by
    norm_num [getConfidenceLabel]
  refine ⟨h0, rfl, by rw [h0]; decide, by norm_num [getConfidenceColor],
    rfl, ?_⟩
  intro c hc0 hc1
  by_cases hc : c = 0
  · subst hc
    rw [h0]
    simp
  · have hpos : 0 < c := lt_of_le_of_ne hc0 (Ne.symm hc)
    simp only [getConfidenceLabel]
    rw [if_neg hc]
    constructor
    · intro _
      exact hpos
    · intro _
      split
      · decide
      · split
        · decide
        · decide

theorem zero_confidence_renders_unknown_witness :
    getConfidenceLabel (some (1/2)) ≠ "Unknown" :=
  (zero_confidence_renders_unknown.2.2.2.2.2 (1/2) (by norm_num)
    (by norm_num)).mpr (by norm_num)
